import Mathlib

/-! checkedc-clang: `CodeGenOptions` and the `CodeGenABITypes` facade

A shallow embedding of

* `include/clang/Basic/CodeGenOptions.h`: the configuration record, the
  accessors generated by `ENUM_CODEGENOPT`, the profile predicates and
  `getNoBuiltinFuncs`;
* `lib/CodeGen/CodeGenABITypes.cpp`: the five `arrange*` entry points of the
  public facade, each a forwarding call into the private `CodeGenTypes` engine.

The engine (`CodeGenTypes`) and the option table (`CodeGenOptions.def`) are not
among the sources.  The facade is therefore embedded over an arbitrary engine,
and the accessors over an arbitrary table of bit-field widths.  Where a
property is decided by the engine itself, the engine is modelled from the
written specification (section `SignatureArranger`).
-/

namespace clang

/-! ## Enumerations of `CodeGenOptions`

An unscoped C++ enumeration is a wrapper around its numeric value:
`static_cast<Type>(n)` is defined for every `n` a bit-field can hold, not only
for the named enumerators. -/

/-- Values of `enum StructReturnConventionKind`. -/
structure StructReturnConventionKind where
  val : Nat
deriving DecidableEq, Repr

/-- Values of `enum ProfileInstrKind`. -/
structure ProfileInstrKind where
  val : Nat
deriving DecidableEq, Repr

/-- No special option was passed. -/
def SRCK_Default : StructReturnConventionKind := ⟨0⟩
/-- Small structs on the stack (-fpcc-struct-return). -/
def SRCK_OnStack : StructReturnConventionKind := ⟨1⟩
/-- Small structs in registers (-freg-struct-return). -/
def SRCK_InRegs : StructReturnConventionKind := ⟨2⟩

/-- Profile instrumentation is turned off. -/
def ProfileNone : ProfileInstrKind := ⟨0⟩
/-- Clang instrumentation to generate execution counts to use with PGO. -/
def ProfileClangInstr : ProfileInstrKind := ⟨1⟩
/-- IR level PGO instrumentation in LLVM. -/
def ProfileIRInstr : ProfileInstrKind := ⟨2⟩

/-! ## The option table and the bit-fields -/

/-- Width in bits of the C++ type `unsigned`. -/
def unsignedWidth : Nat := 32

/-- The `Bits` column of `CodeGenOptions.def` for the enumerated options the
header and its clients name.  The table itself is not among the sources, so
every result below holds for an arbitrary table. -/
structure EnumOptionBits where
  StructReturnConvention : Nat
  ProfileInstr : Nat
  ProfileUse : Nat
deriving DecidableEq, Repr

/-- The conversion `static_cast<unsigned>(Value)` of an enumeration value. -/
def castToUnsigned (v : Nat) : Nat := v % 2 ^ unsignedWidth

/-- Assignment of an `unsigned` to a bit-field `unsigned Name : Bits`: the low
`Bits` bits are kept. -/
def assignBitField (Bits : Nat) (u : Nat) : Nat := u % 2 ^ Bits

/-- The body of the generated mutator:
`Name = static_cast<unsigned>(Value)`. -/
def storeEnum (Bits : Nat) (v : Nat) : Nat := assignBitField Bits (castToUnsigned v)

/-! ## `class CodeGenOptions` -/

/-- The data members of `CodeGenOptions` (with the enumerated bit-fields it
inherits from `CodeGenOptionsBase`).  A `std::string` is a `String`, a
`std::vector` a `List`, the `std::map` an association list, a
`std::shared_ptr<llvm::Regex>` the optional source text of the pattern, and a
`SanitizerSet` its mask. -/
structure CodeGenOptions where
  StructReturnConvention : Nat
  ProfileInstr : Nat
  ProfileUse : Nat
  CodeModel : String
  CoverageFile : String
  CoverageVersion : List Char
  DebugPass : String
  DebugCompilationDir : String
  DwarfDebugFlags : String
  DebugPrefixMap : List (String × String)
  FloatABI : String
  LimitFloatPrecision : String
  LinkBitcodeFiles : List (Nat × String)
  MainFileName : String
  SplitDwarfFile : String
  RelocationModel : String
  ThreadModel : String
  TrapFuncName : String
  BackendOptions : List String
  DependentLibraries : List String
  LinkerOptions : List String
  InstrProfileOutput : String
  SampleProfileFile : String
  ProfileInstrumentUsePath : String
  ThinLTOIndexFile : String
  EABIVersion : String
  CudaGpuBinaryFileNames : List String
  OptimizationRemarkPattern : Option String
  OptimizationRemarkMissedPattern : Option String
  OptimizationRemarkAnalysisPattern : Option String
  RewriteMapFiles : List String
  SanitizeRecover : Nat
  SanitizeTrap : Nat
  NoBuiltinFuncs : List String
  WholeProgramVTablesBlacklistFiles : List String
deriving DecidableEq, Repr

namespace CodeGenOptions

/-- `StructReturnConventionKind getStructReturnConvention() const`. -/
def getStructReturnConvention (self : CodeGenOptions) : StructReturnConventionKind :=
  ⟨self.StructReturnConvention⟩

/-- `void setStructReturnConvention(StructReturnConventionKind Value)`. -/
def setStructReturnConvention (T : EnumOptionBits) (Value : StructReturnConventionKind)
    (self : CodeGenOptions) : CodeGenOptions :=
  { self with StructReturnConvention := storeEnum T.StructReturnConvention Value.val }

/-- `ProfileInstrKind getProfileInstr() const`. -/
def getProfileInstr (self : CodeGenOptions) : ProfileInstrKind :=
  ⟨self.ProfileInstr⟩

/-- `void setProfileInstr(ProfileInstrKind Value)`. -/
def setProfileInstr (T : EnumOptionBits) (Value : ProfileInstrKind)
    (self : CodeGenOptions) : CodeGenOptions :=
  { self with ProfileInstr := storeEnum T.ProfileInstr Value.val }

/-- `ProfileInstrKind getProfileUse() const`. -/
def getProfileUse (self : CodeGenOptions) : ProfileInstrKind :=
  ⟨self.ProfileUse⟩

/-- `void setProfileUse(ProfileInstrKind Value)`. -/
def setProfileUse (T : EnumOptionBits) (Value : ProfileInstrKind)
    (self : CodeGenOptions) : CodeGenOptions :=
  { self with ProfileUse := storeEnum T.ProfileUse Value.val }

/-- `const std::vector<std::string> &getNoBuiltinFuncs() const`. -/
def getNoBuiltinFuncs (self : CodeGenOptions) : List String :=
  self.NoBuiltinFuncs

/-- Check if Clang profile instrumenation is on. -/
def hasProfileClangInstr (self : CodeGenOptions) : Bool :=
  self.getProfileInstr == ProfileClangInstr

/-- Check if IR level profile instrumentation is on. -/
def hasProfileIRInstr (self : CodeGenOptions) : Bool :=
  self.getProfileInstr == ProfileIRInstr

/-- Check if Clang profile use is on. -/
def hasProfileClangUse (self : CodeGenOptions) : Bool :=
  self.getProfileUse == ProfileClangInstr

/-- Check if IR level profile use is on. -/
def hasProfileIRUse (self : CodeGenOptions) : Bool :=
  self.getProfileUse == ProfileIRInstr

/-- A `const` member function run as a step on the object: it yields its
result together with the object, which it cannot write. -/
def constCall {α : Type} (f : CodeGenOptions → α) (self : CodeGenOptions) :
    α × CodeGenOptions :=
  (f self, self)

/-- A configuration with every string and list empty and every bit-field 0. -/
def zeroed : CodeGenOptions where
  StructReturnConvention := 0
  ProfileInstr := 0
  ProfileUse := 0
  CodeModel := ""
  CoverageFile := ""
  CoverageVersion := []
  DebugPass := ""
  DebugCompilationDir := ""
  DwarfDebugFlags := ""
  DebugPrefixMap := []
  FloatABI := ""
  LimitFloatPrecision := ""
  LinkBitcodeFiles := []
  MainFileName := ""
  SplitDwarfFile := ""
  RelocationModel := ""
  ThreadModel := ""
  TrapFuncName := ""
  BackendOptions := []
  DependentLibraries := []
  LinkerOptions := []
  InstrProfileOutput := ""
  SampleProfileFile := ""
  ProfileInstrumentUsePath := ""
  ThinLTOIndexFile := ""
  EABIVersion := ""
  CudaGpuBinaryFileNames := []
  OptimizationRemarkPattern := none
  OptimizationRemarkMissedPattern := none
  OptimizationRemarkAnalysisPattern := none
  RewriteMapFiles := []
  SanitizeRecover := 0
  SanitizeTrap := 0
  NoBuiltinFuncs := []
  WholeProgramVTablesBlacklistFiles := []

end CodeGenOptions

/-- The three float ABI names the specification lists. -/
def specFloatABIs : List String := ["soft", "hard", "soft-fp"]

/-- A table giving each modelled enumerated option a two-bit field. -/
def twoBitTable : EnumOptionBits := ⟨2, 2, 2⟩

namespace CodeGen

/-! ## Types crossing the facade

The AST classes are declared outside the sources at hand.  Each is modelled by
the data the specification attributes to it; a pointer or reference argument
is modelled by the object it designates. -/

/-- Modelled from the spec: `QualType`, whose declaration is not among the
sources; a resolved source type is named by its "type identity". -/
abbrev QualType := Nat

/-- Modelled from the spec: `CanQualType`, whose declaration is not among the
sources; the canonical form of a type, again a "type identity". -/
abbrev CanQualType := Nat

/-- Modelled from the spec: `FunctionType::ExtInfo`, whose declaration is not
among the sources; it carries the "calling convention" and the "no-return"
flag of a signature. -/
structure ExtInfo where
  CC : Nat
  NoReturn : Bool
deriving DecidableEq, Repr

/-- Modelled from the spec: `RequiredArgs`, whose declaration is not among the
sources; "an explicit count of required (non-variadic) arguments". -/
structure RequiredArgs where
  NumRequired : Nat
deriving DecidableEq, Repr

/-- Modelled from the spec: `FunctionProtoType::ExtParameterInfo`, whose
declaration is not among the sources; per-parameter information, by code. -/
abbrev ExtParameterInfo := Nat

/-- Modelled from the spec: `FunctionProtoType`, whose declaration is not among
the sources; "its return type, its formal parameter types" and its call-shape
metadata. -/
structure FunctionProtoType where
  returnType : CanQualType
  paramTypes : List CanQualType
  isVariadic : Bool
  extInfo : ExtInfo
deriving DecidableEq, Repr

/-- Modelled from the spec: `FunctionNoProtoType`, whose declaration is not
among the sources; a function type without a parameter list. -/
structure FunctionNoProtoType where
  returnType : CanQualType
  extInfo : ExtInfo
deriving DecidableEq, Repr

/-- Modelled from the spec: `FunctionDecl`, whose declaration is not among the
sources; a function "as declared", by declaration identity. -/
structure FunctionDecl where
  declId : Nat
deriving DecidableEq, Repr

/-- Modelled from the spec: `ObjCMethodDecl`, whose declaration is not among
the sources; the return type and explicit parameter types of a message send. -/
structure ObjCMethodDecl where
  returnType : QualType
  paramTypes : List QualType
  extInfo : ExtInfo
deriving DecidableEq, Repr

/-- Modelled from the spec: `CXXRecordDecl`, whose declaration is not among the
sources; the record whose type is the "receiver type" of an instance method. -/
structure CXXRecordDecl where
  typeForDecl : QualType
deriving DecidableEq, Repr

/-- Modelled from the spec: `CXXMethodDecl`, whose declaration is not among the
sources; a method "as declared", by declaration identity. -/
structure CXXMethodDecl where
  declId : Nat
deriving DecidableEq, Repr

/-! ## The private engine, as the facade sees it -/

/-- The operations of the private class `CodeGenTypes` that the facade calls,
over an engine state `St` and a descriptor handle type `Info` (the C++ result
`const CGFunctionInfo &`).  The class is not among the sources: the facade is
embedded over every engine of this shape.  The two overloads of
`arrangeFreeFunctionType` get two names. -/
structure CodeGenTypes (St Info : Type) where
  arrangeObjCMessageSendSignature : ObjCMethodDecl → QualType → St → Info × St
  arrangeFreeFunctionType : FunctionProtoType → FunctionDecl → St → Info × St
  arrangeFreeFunctionTypeNoProto : FunctionNoProtoType → St → Info × St
  arrangeCXXMethodType :
    CXXRecordDecl → FunctionProtoType → CXXMethodDecl → St → Info × St
  arrangeLLVMFunctionInfo :
    CanQualType → Bool → Bool → List CanQualType → ExtInfo →
      List ExtParameterInfo → RequiredArgs → St → Info × St

/-- `CodeGenModule`, reduced to what the facade reaches through it: the state
of the engine returned by `getTypes()`. -/
structure CodeGenModule (St : Type) where
  Types : St

/-- `CodeGenModule::getTypes()`. -/
def CodeGenModule.getTypes {St : Type} (self : CodeGenModule St) : St :=
  self.Types

/-- The data members of `class CodeGenABITypes`: the options `CGO` and the
module `CGM` (the header-search and preprocessor options play no part in any
`arrange*` call). -/
structure CodeGenABITypes (St : Type) where
  CGO : clang.CodeGenOptions
  CGM : CodeGenModule St

namespace CodeGenABITypes

variable {St Info : Type}

/-- The effect of `return CGM->getTypes().op(...)`: the facade hands back the
engine's result and keeps the engine's new state in its module. -/
def returnFromTypes (self : CodeGenABITypes St) (r : Info × St) :
    Info × CodeGenABITypes St :=
  (r.1, { self with CGM := { Types := r.2 } })

/-- `CodeGenABITypes::arrangeObjCMessageSendSignature(MD, receiverType)`. -/
def arrangeObjCMessageSendSignature (E : CodeGenTypes St Info)
    (self : CodeGenABITypes St) (MD : ObjCMethodDecl) (receiverType : QualType) :
    Info × CodeGenABITypes St :=
  self.returnFromTypes (E.arrangeObjCMessageSendSignature MD receiverType self.CGM.getTypes)

/-- `CodeGenABITypes::arrangeFreeFunctionType(CanQual<FunctionProtoType> Ty, FD)`. -/
def arrangeFreeFunctionType (E : CodeGenTypes St Info)
    (self : CodeGenABITypes St) (Ty : FunctionProtoType) (FD : FunctionDecl) :
    Info × CodeGenABITypes St :=
  self.returnFromTypes (E.arrangeFreeFunctionType Ty FD self.CGM.getTypes)

/-- `CodeGenABITypes::arrangeFreeFunctionType(CanQual<FunctionNoProtoType> Ty)`. -/
def arrangeFreeFunctionTypeNoProto (E : CodeGenTypes St Info)
    (self : CodeGenABITypes St) (Ty : FunctionNoProtoType) :
    Info × CodeGenABITypes St :=
  self.returnFromTypes (E.arrangeFreeFunctionTypeNoProto Ty self.CGM.getTypes)

/-- `CodeGenABITypes::arrangeCXXMethodType(RD, FTP, MD)`. -/
def arrangeCXXMethodType (E : CodeGenTypes St Info)
    (self : CodeGenABITypes St) (RD : CXXRecordDecl) (FTP : FunctionProtoType)
    (MD : CXXMethodDecl) : Info × CodeGenABITypes St :=
  self.returnFromTypes (E.arrangeCXXMethodType RD FTP MD self.CGM.getTypes)

/-- `CodeGenABITypes::arrangeFreeFunctionCall(returnType, argTypes, info, args)`:
the engine is called with `IsInstanceMethod` false, `IsChainCall` false and an
empty list of per-parameter infos. -/
def arrangeFreeFunctionCall (E : CodeGenTypes St Info)
    (self : CodeGenABITypes St) (returnType : CanQualType)
    (argTypes : List CanQualType) (info : ExtInfo) (args : RequiredArgs) :
    Info × CodeGenABITypes St :=
  self.returnFromTypes
    (E.arrangeLLVMFunctionInfo returnType false false argTypes info [] args
      self.CGM.getTypes)

end CodeGenABITypes

/-! ## Observing the calls into the engine -/

/-- One call into the engine, with the arguments it received. -/
inductive EngineCall where
  | objCMessageSendSignature (MD : ObjCMethodDecl) (receiverType : QualType)
  | freeFunctionType (Ty : FunctionProtoType) (FD : FunctionDecl)
  | freeFunctionTypeNoProto (Ty : FunctionNoProtoType)
  | cxxMethodType (RD : CXXRecordDecl) (FTP : FunctionProtoType) (MD : CXXMethodDecl)
  | llvmFunctionInfo (returnType : CanQualType) (isInstanceMethod isChainCall : Bool)
      (argTypes : List CanQualType) (info : ExtInfo)
      (paramInfos : List ExtParameterInfo) (args : RequiredArgs)
deriving DecidableEq, Repr

/-- Append a call to the log kept beside the engine state. -/
def logged {St Info : Type} (c : EngineCall) (log : List EngineCall) (r : Info × St) :
    Info × (St × List EngineCall) :=
  (r.1, (r.2, log ++ [c]))

/-- The engine `E` with a log: every operation behaves as in `E` and appends
the call it received.  The log is a ghost of the proof; it shows which engine
operations a facade call reaches, and with which arguments. -/
def CodeGenTypes.traced {St Info : Type} (E : CodeGenTypes St Info) :
    CodeGenTypes (St × List EngineCall) Info where
  arrangeObjCMessageSendSignature := fun MD receiverType s =>
    logged (.objCMessageSendSignature MD receiverType) s.2
      (E.arrangeObjCMessageSendSignature MD receiverType s.1)
  arrangeFreeFunctionType := fun Ty FD s =>
    logged (.freeFunctionType Ty FD) s.2 (E.arrangeFreeFunctionType Ty FD s.1)
  arrangeFreeFunctionTypeNoProto := fun Ty s =>
    logged (.freeFunctionTypeNoProto Ty) s.2 (E.arrangeFreeFunctionTypeNoProto Ty s.1)
  arrangeCXXMethodType := fun RD FTP MD s =>
    logged (.cxxMethodType RD FTP MD) s.2 (E.arrangeCXXMethodType RD FTP MD s.1)
  arrangeLLVMFunctionInfo := fun returnType im cc argTypes info paramInfos args s =>
    logged (.llvmFunctionInfo returnType im cc argTypes info paramInfos args) s.2
      (E.arrangeLLVMFunctionInfo returnType im cc argTypes info paramInfos args s.1)

/-! ## The engine as the specification describes it

`CodeGenTypes` is not among the sources.  Properties that only the engine can
decide (descriptor identity across calls, the order of the classifications)
are settled against the following model, written from sections 3, 4 and 7 of
the specification.  Types are resolved before they reach the arranger
("each supplying concrete resolved types"), so the classifiers are total. -/

/-- Modelled from the spec: the error kinds of section 7, absent from the
sources: "(a) UnresolvableType", "(b) InvalidCallShape",
"(c) ConfigurationConflict". -/
inductive ArrangeError where
  | UnresolvableType
  | InvalidCallShape
  | ConfigurationConflict
deriving DecidableEq, Repr

/-- Modelled from the spec: `ArgumentClassification` of section 3, absent from
the sources: "one of a closed set of tags: Direct, Indirect, Extend, Expand,
Ignore". -/
inductive ArgumentClassification where
  | Direct (slots : Nat) (coercion : Option CanQualType)
  | Indirect (align : Nat) (byValue : Bool)
  | Extend (signExtend : Bool)
  | Expand
  | Ignore
deriving DecidableEq, Repr

/-- Modelled from the spec: the `positionInfo` argument of `classify`
(section 4.1), absent from the sources: it "conveys whether this is the first
argument of an instance method (receiver) or a hidden selector slot". -/
inductive PositionInfo where
  | receiver
  | selector
  | ordinary
deriving DecidableEq, Repr

/-- Modelled from the spec: the kind of call of a `CallShapeDescriptor`
(section 3), absent from the sources: "free function, instance method,
message-send, chained call". -/
inductive CallShape where
  | freeFunction
  | instanceMethod
  | messageSend
  | chainedCall
deriving DecidableEq, Repr

/-- Modelled from the spec: `CallInfoDescriptor` of section 3, absent from the
sources: "the return classification, an ordered sequence of argument
classifications (one per formal, in declaration order), the effective calling
convention, the required-argument count, and a small set of call-shape flags
(instance method, chain call, no-return)". -/
structure CallInfoDescriptor where
  returnInfo : ArgumentClassification
  returnsViaHiddenPointer : Bool
  argInfos : List ArgumentClassification
  callingConvention : Nat
  requiredArgs : Nat
  instanceMethod : Bool
  chainCall : Bool
  noReturn : Bool
deriving DecidableEq, Repr

/-- Modelled from the spec: the `SignatureCache` entry key of section 3, absent
from the sources: "a structural, order-sensitive composite of (return type
identity, ordered argument type identities, call-shape flags,
required-argument count)". -/
structure SignatureKey where
  returnType : CanQualType
  argTypes : List CanQualType
  shape : CallShape
  info : ExtInfo
  requiredArgs : Nat
deriving DecidableEq, Repr

/-- Modelled from the spec: the `ArgumentClassifier` and `ReturnClassifier`
contracts of sections 4.1 and 4.2 and the type of the "fixed hidden selector
slot", all absent from the sources.  Section 9 leaves the thresholds to "a
pluggable per-target policy": the policy is a parameter of the model. -/
structure TargetPolicy where
  classify : CanQualType → PositionInfo → clang.CodeGenOptions → ArgumentClassification
  classifyReturn : CanQualType → clang.CodeGenOptions → ArgumentClassification × Bool
  selectorType : CanQualType

/-- Modelled from the spec: the shared reference to a cached descriptor
(sections 4.4 and 9), absent from the sources: a "stable identity-comparable
handle" (arena index) together with the descriptor it designates. -/
structure SharedRef where
  id : Nat
  target : CallInfoDescriptor
deriving DecidableEq, Repr

/-- Modelled from the spec: the `SignatureCache` of section 4.4, absent from
the sources: the descriptors built so far, each under its key, in order of
construction; "no eviction". -/
structure SignatureCache where
  entries : List (SignatureKey × CallInfoDescriptor)
deriving DecidableEq, Repr

/-- Modelled from the spec: the instance a handle designates (sections 4.4 and
9), absent from the sources: the entry the cache holds at that index, if any. -/
def SignatureCache.entryAt (cache : SignatureCache) (id : Nat) :
    Option (SignatureKey × CallInfoDescriptor) :=
  cache.entries[id]?

/-- Modelled from the spec: lookup in the `SignatureCache` (section 4.4), absent
from the sources: the entry stored under `key`, with its index counted from
`i`. -/
def SignatureCache.findFrom (key : SignatureKey) :
    List (SignatureKey × CallInfoDescriptor) → Nat → Option SharedRef
  | [], _ => none
  | e :: rest, i =>
    if e.1 = key then some ⟨i, e.2⟩ else SignatureCache.findFrom key rest (i + 1)

/-- Modelled from the spec: `getOrCreate(key, builder)` of section 4.4, absent
from the sources: "Returns the existing descriptor if key is already present;
otherwise invokes builder exactly once, stores the result under key, and
returns it." -/
def SignatureCache.getOrCreate (cache : SignatureCache) (key : SignatureKey)
    (builder : Unit → CallInfoDescriptor) : SharedRef × SignatureCache :=
  match SignatureCache.findFrom key cache.entries 0 with
  | some r => (r, cache)
  | none =>
    let d := builder ()
    (⟨cache.entries.length, d⟩, ⟨cache.entries ++ [(key, d)]⟩)

/-- Modelled from the spec: the state of the engine, absent from the sources:
the `ConfigurationSnapshot` "passed by reference into every classification
request" and the `SignatureCache`. -/
structure ArrangerState where
  config : clang.CodeGenOptions
  cache : SignatureCache
deriving DecidableEq, Repr

namespace SignatureArranger

/-- Modelled from the spec: the position of the `i`-th argument of a call of
the given shape (sections 4.1 and 4.3), absent from the sources: the receiver
leads an instance method; receiver and selector lead a message send. -/
def positionInfo (shape : CallShape) (i : Nat) : PositionInfo :=
  match shape, i with
  | .instanceMethod, 0 => .receiver
  | .messageSend, 0 => .receiver
  | .messageSend, 1 => .selector
  | _, _ => .ordinary

/-- Modelled from the spec: the `ArgumentClassifier` run "across a full
parameter list" (section 2, item 5), absent from the sources: one
classification per formal, in order, the first formal at position `i`. -/
def classifyFrom (P : TargetPolicy) (cfg : clang.CodeGenOptions) (shape : CallShape) :
    Nat → List CanQualType → List ArgumentClassification
  | _, [] => []
  | i, t :: ts =>
    P.classify t (positionInfo shape i) cfg :: classifyFrom P cfg shape (i + 1) ts

/-- Modelled from the spec: the builder of a descriptor from its canonical key
(sections 3 and 4.3), absent from the sources. -/
def buildDescriptor (P : TargetPolicy) (cfg : clang.CodeGenOptions) (key : SignatureKey) :
    CallInfoDescriptor where
  returnInfo := (P.classifyReturn key.returnType cfg).1
  returnsViaHiddenPointer := (P.classifyReturn key.returnType cfg).2
  argInfos := classifyFrom P cfg key.shape 0 key.argTypes
  callingConvention := key.info.CC
  requiredArgs := key.requiredArgs
  instanceMethod := decide (key.shape = .instanceMethod)
  chainCall := decide (key.shape = .chainedCall)
  noReturn := key.info.NoReturn

/-- Modelled from the spec: the common path of the entry points (sections 4.3
and 7), absent from the sources: "a required-argument count exceeding the
explicit parameter list length" is "rejected before any classification work
runs"; otherwise the entry point "computes the canonical key and delegates to
the SignatureCache". -/
def arrange (P : TargetPolicy) (key : SignatureKey) (explicitParams : Nat)
    (s : ArrangerState) : Except ArrangeError SharedRef × ArrangerState :=
  if explicitParams < key.requiredArgs then (.error .InvalidCallShape, s)
  else
    let r := s.cache.getOrCreate key (fun _ => buildDescriptor P s.config key)
    (.ok r.1, { s with cache := r.2 })

/-- Modelled from the spec: `arrangeFreeFunction(returnType, argumentTypes,
callShapeFlags, requiredArgs)` of section 4.3, absent from the sources. -/
def arrangeFreeFunction (P : TargetPolicy) (returnType : CanQualType)
    (argumentTypes : List CanQualType) (callShapeFlags : ExtInfo) (requiredArgs : Nat) :
    ArrangerState → Except ArrangeError SharedRef × ArrangerState :=
  arrange P ⟨returnType, argumentTypes, .freeFunction, callShapeFlags, requiredArgs⟩
    argumentTypes.length

/-- Modelled from the spec: `arrangeInstanceMethod(receiverType, returnType,
argumentTypes, requiredArgs)` of section 4.3, absent from the sources: it
"prepends an implicit Direct/Indirect-classified receiver argument ahead of
the explicit parameter list". -/
def arrangeInstanceMethod (P : TargetPolicy) (receiverType returnType : CanQualType)
    (argumentTypes : List CanQualType) (callShapeFlags : ExtInfo) (requiredArgs : Nat) :
    ArrangerState → Except ArrangeError SharedRef × ArrangerState :=
  arrange P
    ⟨returnType, receiverType :: argumentTypes, .instanceMethod, callShapeFlags, requiredArgs⟩
    argumentTypes.length

/-- Modelled from the spec: `arrangeMessageSend(receiverType, returnType,
argumentTypes)` of section 4.3, absent from the sources: it "prepends both the
receiver and a fixed hidden selector slot"; the "required-argument count
equals the full explicit parameter count". -/
def arrangeMessageSend (P : TargetPolicy) (receiverType returnType : CanQualType)
    (argumentTypes : List CanQualType) (callShapeFlags : ExtInfo) :
    ArrangerState → Except ArrangeError SharedRef × ArrangerState :=
  arrange P
    ⟨returnType, receiverType :: P.selectorType :: argumentTypes, .messageSend,
      callShapeFlags, argumentTypes.length⟩
    argumentTypes.length

/-- Modelled from the spec: the call shape named by the two flags the facade
passes to `arrangeLLVMFunctionInfo`, absent from the sources. -/
def shapeOfFlags (isInstanceMethod isChainCall : Bool) : CallShape :=
  if isChainCall then .chainedCall
  else if isInstanceMethod then .instanceMethod
  else .freeFunction

/-- Modelled from the spec: the engine `CodeGenTypes`, absent from the sources,
as the `SignatureArranger` of section 4.3 behind the operation names the
facade calls.  A prototype requires all its declared parameters. -/
def engine (P : TargetPolicy) :
    CodeGenTypes ArrangerState (Except ArrangeError SharedRef) where
  arrangeObjCMessageSendSignature := fun MD receiverType =>
    arrangeMessageSend P receiverType MD.returnType MD.paramTypes MD.extInfo
  arrangeFreeFunctionType := fun Ty _ =>
    arrangeFreeFunction P Ty.returnType Ty.paramTypes Ty.extInfo Ty.paramTypes.length
  arrangeFreeFunctionTypeNoProto := fun Ty =>
    arrangeFreeFunction P Ty.returnType [] Ty.extInfo 0
  arrangeCXXMethodType := fun RD FTP _ =>
    arrangeInstanceMethod P RD.typeForDecl FTP.returnType FTP.paramTypes FTP.extInfo
      FTP.paramTypes.length
  arrangeLLVMFunctionInfo := fun returnType im cc argTypes info _ args =>
    arrange P ⟨returnType, argTypes, shapeOfFlags im cc, info, args.NumRequired⟩
      argTypes.length

/-- Modelled from the spec: the canonical key of a message send (sections 3
and 4.3), absent from the sources: return type, then receiver, selector slot
and explicit parameters in order, the message-send shape, and the explicit
parameter count as required-argument count. -/
def messageSendKey (P : TargetPolicy) (MD : ObjCMethodDecl) (receiverType : QualType) :
    SignatureKey :=
  ⟨MD.returnType, receiverType :: P.selectorType :: MD.paramTypes, .messageSend,
    MD.extInfo, MD.paramTypes.length⟩

/-- Modelled from the spec: the invariant of the `SignatureCache` (section 3),
absent from the sources: every stored descriptor is the one the builder makes
for its key under the configuration ("constructed exactly once per distinct
canonical key ... never mutated after construction"). -/
def CacheBuilt (P : TargetPolicy) (s : ArrangerState) : Prop :=
  ∀ e ∈ s.cache.entries, e.2 = buildDescriptor P s.config e.1

end SignatureArranger

/-! ## Concrete data for the worked instances -/

/-- A sample policy: an empty type (identity 0) is ignored, a type narrower
than a register (identity below 4) is extended, a type of identity 64 or more
goes through memory, and any other type is passed directly. -/
def samplePolicy : TargetPolicy where
  classify := fun t _ _ =>
    if t = 0 then .Ignore
    else if t < 4 then .Extend true
    else if 64 ≤ t then .Indirect 8 true
    else .Direct 1 none
  classifyReturn := fun t _ =>
    if t = 0 then (.Ignore, false)
    else if 64 ≤ t then (.Indirect 8 false, true)
    else (.Direct 1 none, false)
  selectorType := 9

/-- The facade `self` over an engine state that carries the log `log`. -/
def withLog {St : Type} (self : CodeGenABITypes St) (log : List EngineCall) :
    CodeGenABITypes (St × List EngineCall) :=
  ⟨self.CGO, ⟨(self.CGM.Types, log)⟩⟩

/-- The calls into the engine logged so far. -/
def callsOf {St : Type} (self : CodeGenABITypes (St × List EngineCall)) :
    List EngineCall :=
  self.CGM.Types.2

/-- A facade over the modelled engine, with an empty cache and an empty log. -/
def sampleFacade : CodeGenABITypes (ArrangerState × List EngineCall) :=
  ⟨clang.CodeGenOptions.zeroed, ⟨(⟨clang.CodeGenOptions.zeroed, ⟨[]⟩⟩, [])⟩⟩

/-- A facade over the modelled engine, with an empty cache. -/
def freshFacade : CodeGenABITypes ArrangerState :=
  ⟨clang.CodeGenOptions.zeroed, ⟨⟨clang.CodeGenOptions.zeroed, ⟨[]⟩⟩⟩⟩

end CodeGen

/-! ## Results on `CodeGenOptions` -/

namespace CodeGenOptions

/-- A bit-field no wider than `unsigned` stores the value modulo `2 ^ Bits`. -/
theorem storeEnum_of_le {Bits : Nat} (h : Bits ≤ unsignedWidth) (v : Nat) :
    storeEnum Bits v = v % 2 ^ Bits := by
  unfold storeEnum assignBitField castToUnsigned
  exact Nat.mod_mod_of_dvd v (pow_dvd_pow 2 h)

/-- The stored value is the value itself exactly when it fits the field. -/
theorem storeEnum_eq_self_iff {Bits : Nat} (h : Bits ≤ unsignedWidth) (v : Nat) :
    storeEnum Bits v = v ↔ v < 2 ^ Bits := by
  rw [storeEnum_of_le h]
  constructor
  · intro e
    rw [← e]
    exact Nat.mod_lt _ (Nat.pos_pow_of_pos Bits (by decide))
  · intro lt
    exact Nat.mod_eq_of_lt lt

/-- A stored value always fits its field. -/
theorem storeEnum_lt (Bits v : Nat) : storeEnum Bits v < 2 ^ Bits := by
  unfold storeEnum assignBitField
  exact Nat.mod_lt _ (Nat.pos_pow_of_pos Bits (by decide))

/-- C4 (as stated, refuted): requesting `SRCK_OnStack` and then `SRCK_InRegs`
on one configuration is accepted silently.  The result is an ordinary
configuration, the very one obtained by requesting `SRCK_InRegs` alone, and
the getter answers `SRCK_InRegs`: nothing records or reports the conflict. -/
theorem conflicting_struct_return_accepted :
    setStructReturnConvention twoBitTable SRCK_InRegs
        (setStructReturnConvention twoBitTable SRCK_OnStack zeroed)
      = setStructReturnConvention twoBitTable SRCK_InRegs zeroed
    ∧ (setStructReturnConvention twoBitTable SRCK_InRegs
        (setStructReturnConvention twoBitTable SRCK_OnStack zeroed)).getStructReturnConvention
      = SRCK_InRegs
    ∧ (setStructReturnConvention twoBitTable SRCK_OnStack zeroed).getStructReturnConvention
      = SRCK_OnStack := by
  refine ⟨rfl, ?_, ?_⟩ <;> decide

/-- C4 (amended): `setStructReturnConvention` performs no conflict detection.
For every table, configuration and pair of requested conventions, the second
request overwrites the first: the configuration after both requests is the one
the second request alone produces, and every other field is as before. -/
theorem setStructReturnConvention_last_wins (T : EnumOptionBits) (c : CodeGenOptions)
    (a b : StructReturnConventionKind) :
    setStructReturnConvention T b (setStructReturnConvention T a c)
      = setStructReturnConvention T b c
    ∧ (setStructReturnConvention T b (setStructReturnConvention T a c)).StructReturnConvention
      = storeEnum T.StructReturnConvention b.val
    ∧ setStructReturnConvention T b (setStructReturnConvention T a c)
      = { c with StructReturnConvention := storeEnum T.StructReturnConvention b.val } :=
  ⟨rfl, rfl, rfl⟩

/-- C6: `getNoBuiltinFuncs` returns exactly the stored `NoBuiltinFuncs` list,
with the same count and the same name at every index, and the call, being
`const`, leaves the configuration as it was. -/
theorem getNoBuiltinFuncs_exact (c : CodeGenOptions) :
    constCall getNoBuiltinFuncs c = (c.NoBuiltinFuncs, c)
    ∧ (getNoBuiltinFuncs c).length = c.NoBuiltinFuncs.length
    ∧ (∀ i : Nat, (getNoBuiltinFuncs c)[i]? = c.NoBuiltinFuncs[i]?)
    ∧ (constCall getNoBuiltinFuncs c).2 = c :=
  ⟨rfl, rfl, fun _ => rfl, rfl⟩

/-- C7 (as stated, refuted): a configuration can hold a float ABI outside
soft, hard and soft-fp.  `FloatABI` is a `std::string`: it is empty in a
configuration whose strings are default-constructed, and it can be assigned
any text. -/
theorem floatABI_outside_named_values :
    zeroed.FloatABI ∉ specFloatABIs
    ∧ ({ zeroed with FloatABI := "quad" } : CodeGenOptions).FloatABI ∉ specFloatABIs := by
  constructor <;> decide

/-- C7 (amended): the float ABI selector is a free-form string field.  Every
string is the `FloatABI` of some configuration, the three named values among
them; assigning the field changes no other option. -/
theorem floatABI_free_form (c : CodeGenOptions) (s : String) :
    ({ c with FloatABI := s } : CodeGenOptions).FloatABI = s
    ∧ ({ c with FloatABI := s } : CodeGenOptions).NoBuiltinFuncs = c.NoBuiltinFuncs
    ∧ ({ c with FloatABI := s } : CodeGenOptions).getStructReturnConvention
        = c.getStructReturnConvention
    ∧ ∀ x ∈ specFloatABIs, ∃ c1 : CodeGenOptions, c1.FloatABI = x :=
  ⟨rfl, rfl, rfl, fun x _ => ⟨{ c with FloatABI := x }, rfl⟩⟩

/-- C9: for each enumerated option and every value `v` of its enumeration, the
field stored by `setName(v)` is `v`'s numeric value modulo `2 ^ Bits`, and
`getName()` after `setName(v)` returns `v` exactly when `v`'s numeric value is
below `2 ^ Bits` (the table giving no field more bits than `unsigned` has). -/
theorem enum_option_round_trip (T : EnumOptionBits) (c : CodeGenOptions)
    (hS : T.StructReturnConvention ≤ unsignedWidth)
    (hI : T.ProfileInstr ≤ unsignedWidth)
    (hU : T.ProfileUse ≤ unsignedWidth)
    (v : StructReturnConventionKind) (w : ProfileInstrKind) :
    ((setStructReturnConvention T v c).StructReturnConvention
        = v.val % 2 ^ T.StructReturnConvention
      ∧ ((setStructReturnConvention T v c).getStructReturnConvention = v
          ↔ v.val < 2 ^ T.StructReturnConvention))
    ∧ ((setProfileInstr T w c).ProfileInstr = w.val % 2 ^ T.ProfileInstr
      ∧ ((setProfileInstr T w c).getProfileInstr = w ↔ w.val < 2 ^ T.ProfileInstr))
    ∧ ((setProfileUse T w c).ProfileUse = w.val % 2 ^ T.ProfileUse
      ∧ ((setProfileUse T w c).getProfileUse = w ↔ w.val < 2 ^ T.ProfileUse)) := by
  refine ⟨⟨storeEnum_of_le hS v.val, ?_⟩, ⟨storeEnum_of_le hI w.val, ?_⟩,
    ⟨storeEnum_of_le hU w.val, ?_⟩⟩
  · rw [← storeEnum_eq_self_iff hS v.val]
    cases v
    simp [getStructReturnConvention, setStructReturnConvention]
  · rw [← storeEnum_eq_self_iff hI w.val]
    cases w
    simp [getProfileInstr, setProfileInstr]
  · rw [← storeEnum_eq_self_iff hU w.val]
    cases w
    simp [getProfileUse, setProfileUse]

/-- C9 at a concrete input: with two-bit fields, `SRCK_InRegs` (2) and
`ProfileIRInstr` (2) are stored as 2 and read back unchanged. -/
theorem enum_option_round_trip_witness :
    ((setStructReturnConvention twoBitTable SRCK_InRegs zeroed).StructReturnConvention
        = SRCK_InRegs.val % 2 ^ twoBitTable.StructReturnConvention
      ∧ ((setStructReturnConvention twoBitTable SRCK_InRegs zeroed).getStructReturnConvention
            = SRCK_InRegs
          ↔ SRCK_InRegs.val < 2 ^ twoBitTable.StructReturnConvention))
    ∧ ((setProfileInstr twoBitTable ProfileIRInstr zeroed).ProfileInstr
        = ProfileIRInstr.val % 2 ^ twoBitTable.ProfileInstr
      ∧ ((setProfileInstr twoBitTable ProfileIRInstr zeroed).getProfileInstr = ProfileIRInstr
          ↔ ProfileIRInstr.val < 2 ^ twoBitTable.ProfileInstr))
    ∧ ((setProfileUse twoBitTable ProfileIRInstr zeroed).ProfileUse
        = ProfileIRInstr.val % 2 ^ twoBitTable.ProfileUse
      ∧ ((setProfileUse twoBitTable ProfileIRInstr zeroed).getProfileUse = ProfileIRInstr
          ↔ ProfileIRInstr.val < 2 ^ twoBitTable.ProfileUse)) :=
  enum_option_round_trip twoBitTable zeroed (by decide) (by decide) (by decide)
    SRCK_InRegs ProfileIRInstr

/-- C10: `hasProfileClangInstr` and `hasProfileIRInstr` are never both true and
are both false when the `ProfileInstr` kind is `ProfileNone`; likewise
`hasProfileClangUse` and `hasProfileIRUse` for the `ProfileUse` kind. -/
theorem profile_predicates_exclusive (c : CodeGenOptions) :
    ¬ (c.hasProfileClangInstr = true ∧ c.hasProfileIRInstr = true)
    ∧ (c.getProfileInstr = ProfileNone →
        c.hasProfileClangInstr = false ∧ c.hasProfileIRInstr = false)
    ∧ ¬ (c.hasProfileClangUse = true ∧ c.hasProfileIRUse = true)
    ∧ (c.getProfileUse = ProfileNone →
        c.hasProfileClangUse = false ∧ c.hasProfileIRUse = false) := by
  refine ⟨?_, ?_, ?_, ?_⟩
  · rintro ⟨h1, h2⟩
    simp only [hasProfileClangInstr, hasProfileIRInstr, beq_iff_eq] at h1 h2
    rw [h1] at h2
    exact absurd h2 (by decide)
  · intro h
    simp only [hasProfileClangInstr, hasProfileIRInstr, h]
    constructor <;> decide
  · rintro ⟨h1, h2⟩
    simp only [hasProfileClangUse, hasProfileIRUse, beq_iff_eq] at h1 h2
    rw [h1] at h2
    exact absurd h2 (by decide)
  · intro h
    simp only [hasProfileClangUse, hasProfileIRUse, h]
    constructor <;> decide

/-- C10 at a concrete input: a configuration whose two profile kinds are
`ProfileNone` answers false to all four predicates. -/
theorem profile_predicates_exclusive_witness :
    (zeroed.getProfileInstr = ProfileNone ∧ zeroed.getProfileUse = ProfileNone)
    ∧ (zeroed.hasProfileClangInstr = false ∧ zeroed.hasProfileIRInstr = false)
    ∧ (zeroed.hasProfileClangUse = false ∧ zeroed.hasProfileIRUse = false) :=
  ⟨⟨rfl, rfl⟩, (profile_predicates_exclusive zeroed).2.1 rfl,
    (profile_predicates_exclusive zeroed).2.2.2 rfl⟩

end CodeGenOptions

/-! ## Results on the facade -/

namespace CodeGen

open CodeGenABITypes SignatureArranger

/-- C1: `arrangeFreeFunctionCall` returns exactly what the engine's
`arrangeLLVMFunctionInfo` returns for the same return type, the same argument
types in the same order, the same ext-info and the same required-args, with
the instance-method flag false, the chain-call flag false and an empty
per-parameter info list.  The engine is left in the state that call produces,
the options are untouched, and the engine receives this one call and no
other. -/
theorem arrangeFreeFunctionCall_is_arrangeLLVMFunctionInfo {St Info : Type}
    (E : CodeGenTypes St Info) (self : CodeGenABITypes St) (log : List EngineCall)
    (returnType : CanQualType) (argTypes : List CanQualType) (info : ExtInfo)
    (args : RequiredArgs) :
    (arrangeFreeFunctionCall E self returnType argTypes info args).1
      = (E.arrangeLLVMFunctionInfo returnType false false argTypes info [] args
          self.CGM.getTypes).1
    ∧ (arrangeFreeFunctionCall E self returnType argTypes info args).2.CGM.getTypes
      = (E.arrangeLLVMFunctionInfo returnType false false argTypes info [] args
          self.CGM.getTypes).2
    ∧ (arrangeFreeFunctionCall E self returnType argTypes info args).2.CGO = self.CGO
    ∧ callsOf (arrangeFreeFunctionCall E.traced (withLog self log) returnType argTypes
          info args).2
      = log ++ [EngineCall.llvmFunctionInfo returnType false false argTypes info [] args] :=
  ⟨rfl, rfl, rfl, rfl⟩

/-- C8: each of `arrangeObjCMessageSendSignature(MD, receiverType)`,
`arrangeFreeFunctionType(Ty, FD)`, `arrangeFreeFunctionType(Ty)` for a
no-prototype type and `arrangeCXXMethodType(RD, FTP, MD)` returns exactly what
the engine's operation of the same name returns for the same arguments in the
same positions, leaves the engine in the state that operation produces, and
reaches the engine through that one call only. -/
theorem facade_equals_engine {St Info : Type}
    (E : CodeGenTypes St Info) (self : CodeGenABITypes St) (log : List EngineCall)
    (MD : ObjCMethodDecl) (receiverType : QualType)
    (Ty : FunctionProtoType) (FD : FunctionDecl) (NoProtoTy : FunctionNoProtoType)
    (RD : CXXRecordDecl) (FTP : FunctionProtoType) (CMD : CXXMethodDecl) :
    ((arrangeObjCMessageSendSignature E self MD receiverType).1
        = (E.arrangeObjCMessageSendSignature MD receiverType self.CGM.getTypes).1
      ∧ (arrangeObjCMessageSendSignature E self MD receiverType).2.CGM.getTypes
        = (E.arrangeObjCMessageSendSignature MD receiverType self.CGM.getTypes).2
      ∧ callsOf (arrangeObjCMessageSendSignature E.traced (withLog self log) MD
            receiverType).2
        = log ++ [EngineCall.objCMessageSendSignature MD receiverType])
    ∧ ((arrangeFreeFunctionType E self Ty FD).1
        = (E.arrangeFreeFunctionType Ty FD self.CGM.getTypes).1
      ∧ (arrangeFreeFunctionType E self Ty FD).2.CGM.getTypes
        = (E.arrangeFreeFunctionType Ty FD self.CGM.getTypes).2
      ∧ callsOf (arrangeFreeFunctionType E.traced (withLog self log) Ty FD).2
        = log ++ [EngineCall.freeFunctionType Ty FD])
    ∧ ((arrangeFreeFunctionTypeNoProto E self NoProtoTy).1
        = (E.arrangeFreeFunctionTypeNoProto NoProtoTy self.CGM.getTypes).1
      ∧ (arrangeFreeFunctionTypeNoProto E self NoProtoTy).2.CGM.getTypes
        = (E.arrangeFreeFunctionTypeNoProto NoProtoTy self.CGM.getTypes).2
      ∧ callsOf (arrangeFreeFunctionTypeNoProto E.traced (withLog self log) NoProtoTy).2
        = log ++ [EngineCall.freeFunctionTypeNoProto NoProtoTy])
    ∧ ((arrangeCXXMethodType E self RD FTP CMD).1
        = (E.arrangeCXXMethodType RD FTP CMD self.CGM.getTypes).1
      ∧ (arrangeCXXMethodType E self RD FTP CMD).2.CGM.getTypes
        = (E.arrangeCXXMethodType RD FTP CMD self.CGM.getTypes).2
      ∧ callsOf (arrangeCXXMethodType E.traced (withLog self log) RD FTP CMD).2
        = log ++ [EngineCall.cxxMethodType RD FTP CMD]) :=
  ⟨⟨rfl, rfl, rfl⟩, ⟨rfl, rfl, rfl⟩, ⟨rfl, rfl, rfl⟩, ⟨rfl, rfl, rfl⟩⟩

/-! ### The cache of the modelled engine -/

/-- A hit designates an entry of the cache stored under the key asked for. -/
theorem findFrom_mem {key : SignatureKey} :
    ∀ (es : List (SignatureKey × CallInfoDescriptor)) (i : Nat) (r : SharedRef),
      SignatureCache.findFrom key es i = some r → (key, r.target) ∈ es
  | [], _, _, h => by simp [SignatureCache.findFrom] at h
  | e :: rest, i, r, h => by
    unfold SignatureCache.findFrom at h
    split at h
    · rename_i hk
      have hr : r = ⟨i, e.2⟩ := by
        injection h with h1
        exact h1.symm
      subst hr
      have he : e = (key, e.2) := by rw [← hk]
      rw [List.mem_cons]
      exact Or.inl he.symm
    · exact List.mem_cons_of_mem _ (findFrom_mem rest (i + 1) r h)

/-- After a miss, the entry appended under the key is the one found, at the
index the cache had as its length. -/
theorem findFrom_append_of_none {key : SignatureKey} (d : CallInfoDescriptor) :
    ∀ (es : List (SignatureKey × CallInfoDescriptor)) (i : Nat),
      SignatureCache.findFrom key es i = none →
      SignatureCache.findFrom key (es ++ [(key, d)]) i = some ⟨i + es.length, d⟩
  | [], i, _ => by simp [SignatureCache.findFrom]
  | e :: rest, i, h => by
    unfold SignatureCache.findFrom at h
    split at h
    · exact absurd h (by simp)
    · rename_i hk
      have ih := findFrom_append_of_none d rest (i + 1) h
      have hlen : i + 1 + rest.length = i + (rest.length + 1) := by omega
      rw [hlen] at ih
      rw [List.cons_append, SignatureCache.findFrom, if_neg hk, List.length_cons]
      exact ih

/-- Asking `getOrCreate` again for a key it has just served returns the same
shared reference and leaves the cache as the first call left it. -/
theorem getOrCreate_again (cache : SignatureCache) (key : SignatureKey)
    (b1 b2 : Unit → CallInfoDescriptor) :
    (cache.getOrCreate key b1).2.getOrCreate key b2 = cache.getOrCreate key b1 := by
  unfold SignatureCache.getOrCreate
  cases h : SignatureCache.findFrom key cache.entries 0 with
  | some r => simp [h]
  | none =>
    have h2 := findFrom_append_of_none (b1 ()) cache.entries 0 h
    simp [h2]

/-- The descriptor `getOrCreate` returns in a well-built cache is the one the
builder makes for the key. -/
theorem getOrCreate_target (P : TargetPolicy) (s : ArrangerState) (h : CacheBuilt P s)
    (key : SignatureKey) :
    (s.cache.getOrCreate key (fun _ => buildDescriptor P s.config key)).1.target
      = buildDescriptor P s.config key := by
  unfold SignatureCache.getOrCreate
  cases hf : SignatureCache.findFrom key s.cache.entries 0 with
  | some r => exact h _ (findFrom_mem _ _ _ hf)
  | none => rfl

/-- The empty cache is well built. -/
theorem cacheBuilt_empty (P : TargetPolicy) (cfg : clang.CodeGenOptions) :
    CacheBuilt P ⟨cfg, ⟨[]⟩⟩ := by
  intro e he
  simp at he

/-- Every request keeps the cache well built. -/
theorem cacheBuilt_arrange (P : TargetPolicy) (s : ArrangerState) (h : CacheBuilt P s)
    (key : SignatureKey) (n : Nat) : CacheBuilt P (arrange P key n s).2 := by
  unfold arrange
  split
  · exact h
  · unfold SignatureCache.getOrCreate
    cases hf : SignatureCache.findFrom key s.cache.entries 0 with
    | some r => exact h
    | none =>
      intro e he
      simp only [List.mem_append, List.mem_singleton] at he
      rcases he with he | he
      · exact h e he
      · subst he
        rfl

/-- A request whose required count fits its explicit parameters is served. -/
theorem arrange_ok (P : TargetPolicy) (key : SignatureKey) (n : Nat) (s : ArrangerState)
    (h : key.requiredArgs ≤ n) :
    (arrange P key n s).1
      = .ok (s.cache.getOrCreate key (fun _ => buildDescriptor P s.config key)).1 := by
  unfold arrange
  rw [if_neg (Nat.not_lt.mpr h)]

/-- A request whose required count exceeds its explicit parameters is rejected
and the state of the engine, cache included, is untouched. -/
theorem arrange_rejects (P : TargetPolicy) (key : SignatureKey) (n : Nat) (s : ArrangerState)
    (h : n < key.requiredArgs) :
    arrange P key n s = (.error .InvalidCallShape, s) := by
  unfold arrange
  rw [if_pos h]

/-- Repeating a request on the state the first request left gives the same
outcome and the same state. -/
theorem arrange_again (P : TargetPolicy) (key : SignatureKey) (n : Nat) (s : ArrangerState) :
    arrange P key n (arrange P key n s).2 = arrange P key n s := by
  by_cases h : n < key.requiredArgs
  · rw [arrange_rejects P key n s h]
    exact arrange_rejects P key n s h
  · unfold arrange
    simp only [if_neg h]
    rw [getOrCreate_again]

/-- A hit returns the index and the descriptor of an entry stored under the
key asked for. -/
theorem findFrom_get {key : SignatureKey} :
    ∀ (es : List (SignatureKey × CallInfoDescriptor)) (i : Nat) (r : SharedRef),
      SignatureCache.findFrom key es i = some r →
      ∃ j, r.id = i + j ∧ es[j]? = some (key, r.target)
  | [], _, _, h => by simp [SignatureCache.findFrom] at h
  | e :: rest, i, r, h => by
    unfold SignatureCache.findFrom at h
    split at h
    · rename_i hk
      have hr : r = ⟨i, e.2⟩ := by
        injection h with h1
        exact h1.symm
      subst hr
      have he : e = (key, e.2) := by rw [← hk]
      exact ⟨0, rfl, by rw [List.getElem?_cons_zero, ← he]⟩
    · obtain ⟨j, hj, hg⟩ := findFrom_get rest (i + 1) r h
      exact ⟨j + 1, by omega, by rw [List.getElem?_cons_succ]; exact hg⟩

/-- The reference `getOrCreate` returns designates an entry the resulting cache
holds: at the index it carries, under the key asked for, the descriptor it
carries. -/
theorem getOrCreate_stored (cache : SignatureCache) (key : SignatureKey)
    (b : Unit → CallInfoDescriptor) :
    (cache.getOrCreate key b).2.entryAt (cache.getOrCreate key b).1.id
      = some (key, (cache.getOrCreate key b).1.target) := by
  unfold SignatureCache.getOrCreate SignatureCache.entryAt
  cases h : SignatureCache.findFrom key cache.entries 0 with
  | some r =>
    obtain ⟨j, hj, hg⟩ := findFrom_get cache.entries 0 r h
    have hid : r.id = j := by omega
    simp only [hid]
    exact hg
  | none => simp

/-- The cache `getOrCreate` leaves is the cache it found, or that cache with
the one entry it returns appended. -/
theorem getOrCreate_entries (cache : SignatureCache) (key : SignatureKey)
    (b : Unit → CallInfoDescriptor) :
    (cache.getOrCreate key b).2.entries = cache.entries
    ∨ (cache.getOrCreate key b).2.entries
        = cache.entries ++ [(key, (cache.getOrCreate key b).1.target)] := by
  unfold SignatureCache.getOrCreate
  cases h : SignatureCache.findFrom key cache.entries 0 with
  | some r => exact Or.inl rfl
  | none => exact Or.inr rfl

/-- An entry the cache holds stays where it is: `getOrCreate` never moves,
replaces or evicts. -/
theorem getOrCreate_keeps (cache : SignatureCache) (key : SignatureKey)
    (b : Unit → CallInfoDescriptor) (i : Nat) (e : SignatureKey × CallInfoDescriptor)
    (h : cache.entryAt i = some e) : (cache.getOrCreate key b).2.entryAt i = some e := by
  unfold SignatureCache.entryAt at h ⊢
  rcases getOrCreate_entries cache key b with hs | hs
  · rw [hs]
    exact h
  · rw [hs]
    have hlt : i < cache.entries.length := by
      by_contra hge
      rw [List.getElem?_eq_none (Nat.le_of_not_lt hge)] at h
      exact absurd h (by simp)
    rw [List.getElem?_append_left hlt]
    exact h

/-- The state a served request leaves: the configuration as it was, the cache
as `getOrCreate` left it. -/
theorem arrange_state (P : TargetPolicy) (key : SignatureKey) (n : Nat) (s : ArrangerState)
    (h : key.requiredArgs ≤ n) :
    (arrange P key n s).2
      = { s with cache :=
            (s.cache.getOrCreate key (fun _ => buildDescriptor P s.config key)).2 } := by
  unfold arrange
  rw [if_neg (Nat.not_lt.mpr h)]

/-- C2: on one facade instance over the specified engine, two successive calls
to `arrangeObjCMessageSendSignature` with identical arguments return the same
descriptor instance.  The first call returns a reference `r`; the second call
returns `r` again and leaves the facade, cache included, exactly as the first
call left it, so it builds and stores nothing.  `r` is an instance of the
cache and not a value computed anew: the cache left by the first call holds,
at index `r.id` and under the canonical key of the request, the descriptor
`r.target`, and that cache is the one the first call found or that one with
this single entry appended.  Identity is separate from value: a later request
with a different canonical key gets a reference with a different identity,
whatever its descriptor. -/
theorem arrangeObjCMessageSendSignature_same_instance (P : TargetPolicy)
    (self : CodeGenABITypes ArrangerState) (MD : ObjCMethodDecl) (receiverType : QualType) :
    ∃ r : SharedRef,
      (arrangeObjCMessageSendSignature (engine P) self MD receiverType).1 = .ok r
      ∧ (arrangeObjCMessageSendSignature (engine P)
            (arrangeObjCMessageSendSignature (engine P) self MD receiverType).2
            MD receiverType).1 = .ok r
      ∧ (arrangeObjCMessageSendSignature (engine P)
            (arrangeObjCMessageSendSignature (engine P) self MD receiverType).2
            MD receiverType).2
          = (arrangeObjCMessageSendSignature (engine P) self MD receiverType).2
      ∧ (arrangeObjCMessageSendSignature (engine P) self MD receiverType).2.CGM.getTypes.cache.entryAt
            r.id
          = some (messageSendKey P MD receiverType, r.target)
      ∧ ((arrangeObjCMessageSendSignature (engine P) self MD receiverType).2.CGM.getTypes.cache.entries
            = self.CGM.getTypes.cache.entries
          ∨ (arrangeObjCMessageSendSignature (engine P) self MD receiverType).2.CGM.getTypes.cache.entries
            = self.CGM.getTypes.cache.entries ++ [(messageSendKey P MD receiverType, r.target)])
      ∧ ∀ (MD2 : ObjCMethodDecl) (receiverType2 : QualType),
          messageSendKey P MD2 receiverType2 ≠ messageSendKey P MD receiverType →
          ∃ r2 : SharedRef,
            (arrangeObjCMessageSendSignature (engine P)
                (arrangeObjCMessageSendSignature (engine P) self MD receiverType).2
                MD2 receiverType2).1 = .ok r2
            ∧ r2.id ≠ r.id := by
  have hok := arrange_ok P (messageSendKey P MD receiverType) MD.paramTypes.length
    self.CGM.Types (Nat.le_refl _)
  have hagain := arrange_again P (messageSendKey P MD receiverType) MD.paramTypes.length
    self.CGM.Types
  have hstate := arrange_state P (messageSendKey P MD receiverType) MD.paramTypes.length
    self.CGM.Types (Nat.le_refl _)
  have hstored := getOrCreate_stored self.CGM.Types.cache (messageSendKey P MD receiverType)
    (fun _ => buildDescriptor P self.CGM.Types.config (messageSendKey P MD receiverType))
  refine ⟨_, hok, ?_, ?_, ?_, ?_, ?_⟩
  · show (arrange P (messageSendKey P MD receiverType) MD.paramTypes.length
        (arrange P (messageSendKey P MD receiverType) MD.paramTypes.length self.CGM.Types).2).1 = _
    rw [hagain]
    exact hok
  · show (⟨self.CGO, ⟨(arrange P (messageSendKey P MD receiverType) MD.paramTypes.length
          (arrange P (messageSendKey P MD receiverType) MD.paramTypes.length self.CGM.Types).2).2⟩⟩ :
        CodeGenABITypes ArrangerState)
      = ⟨self.CGO, ⟨(arrange P (messageSendKey P MD receiverType) MD.paramTypes.length self.CGM.Types).2⟩⟩
    rw [hagain]
  · show (arrange P (messageSendKey P MD receiverType) MD.paramTypes.length
        self.CGM.Types).2.cache.entryAt _ = _
    rw [hstate]
    exact hstored
  · show (arrange P (messageSendKey P MD receiverType) MD.paramTypes.length
        self.CGM.Types).2.cache.entries = _ ∨
      (arrange P (messageSendKey P MD receiverType) MD.paramTypes.length
        self.CGM.Types).2.cache.entries = _
    rw [hstate]
    exact getOrCreate_entries _ _ _
  · intro MD2 receiverType2 hne
    have hok2 := arrange_ok P (messageSendKey P MD2 receiverType2) MD2.paramTypes.length
      (arrange P (messageSendKey P MD receiverType) MD.paramTypes.length self.CGM.Types).2
      (Nat.le_refl _)
    refine ⟨_, hok2, ?_⟩
    intro hid
    have hstored2 := getOrCreate_stored
      (arrange P (messageSendKey P MD receiverType) MD.paramTypes.length
        self.CGM.Types).2.cache (messageSendKey P MD2 receiverType2)
      (fun _ => buildDescriptor P
        (arrange P (messageSendKey P MD receiverType) MD.paramTypes.length
          self.CGM.Types).2.config (messageSendKey P MD2 receiverType2))
    have hkept := getOrCreate_keeps
      (arrange P (messageSendKey P MD receiverType) MD.paramTypes.length
        self.CGM.Types).2.cache (messageSendKey P MD2 receiverType2)
      (fun _ => buildDescriptor P
        (arrange P (messageSendKey P MD receiverType) MD.paramTypes.length
          self.CGM.Types).2.config (messageSendKey P MD2 receiverType2))
      _ _ (by rw [hstate]; exact hstored)
    rw [hid, hkept] at hstored2
    injection hstored2 with h1
    injection h1 with h2 _
    exact hne h2.symm

/-- C2 at a concrete input: on a fresh facade, the message send with explicit
parameter `[5]` to receiver 7 is served twice by the one instance stored at its
index, while the message send with parameter `[6]`, whose canonical key
differs, gets another identity although its descriptor has the same value. -/
theorem arrangeObjCMessageSendSignature_same_instance_witness :
    messageSendKey samplePolicy ⟨0, [6], ⟨0, false⟩⟩ 7
      ≠ messageSendKey samplePolicy ⟨0, [5], ⟨0, false⟩⟩ 7
    ∧ ∃ r r2 : SharedRef,
        (arrangeObjCMessageSendSignature (engine samplePolicy) freshFacade
            ⟨0, [5], ⟨0, false⟩⟩ 7).1 = .ok r
        ∧ (arrangeObjCMessageSendSignature (engine samplePolicy)
            (arrangeObjCMessageSendSignature (engine samplePolicy) freshFacade
              ⟨0, [5], ⟨0, false⟩⟩ 7).2 ⟨0, [5], ⟨0, false⟩⟩ 7).1 = .ok r
        ∧ (arrangeObjCMessageSendSignature (engine samplePolicy) freshFacade
            ⟨0, [5], ⟨0, false⟩⟩ 7).2.CGM.getTypes.cache.entryAt r.id
          = some (messageSendKey samplePolicy ⟨0, [5], ⟨0, false⟩⟩ 7, r.target)
        ∧ (arrangeObjCMessageSendSignature (engine samplePolicy)
            (arrangeObjCMessageSendSignature (engine samplePolicy) freshFacade
              ⟨0, [5], ⟨0, false⟩⟩ 7).2 ⟨0, [6], ⟨0, false⟩⟩ 7).1 = .ok r2
        ∧ r2.id ≠ r.id
        ∧ r2.target = r.target := by
  refine ⟨by decide, ?_⟩
  obtain ⟨r, h1, h2, _, h4, _, h6⟩ :=
    arrangeObjCMessageSendSignature_same_instance samplePolicy freshFacade
      ⟨0, [5], ⟨0, false⟩⟩ 7
  obtain ⟨r2, h7, h8⟩ := h6 ⟨0, [6], ⟨0, false⟩⟩ 7 (by decide)
  refine ⟨r, r2, h1, h2, h4, h7, h8, ?_⟩
  have e1 : (arrangeObjCMessageSendSignature (engine samplePolicy) freshFacade
      ⟨0, [5], ⟨0, false⟩⟩ 7).1
      = .ok ⟨0, buildDescriptor samplePolicy clang.CodeGenOptions.zeroed
          (messageSendKey samplePolicy ⟨0, [5], ⟨0, false⟩⟩ 7)⟩ := rfl
  have e2 : (arrangeObjCMessageSendSignature (engine samplePolicy)
      (arrangeObjCMessageSendSignature (engine samplePolicy) freshFacade
        ⟨0, [5], ⟨0, false⟩⟩ 7).2 ⟨0, [6], ⟨0, false⟩⟩ 7).1
      = .ok ⟨1, buildDescriptor samplePolicy clang.CodeGenOptions.zeroed
          (messageSendKey samplePolicy ⟨0, [6], ⟨0, false⟩⟩ 7)⟩ := rfl
  rw [h1] at e1
  rw [h7] at e2
  injection e1 with e1
  injection e2 with e2
  rw [e1, e2]
  decide

/-- C3 (as stated, refuted): a free-function request with no argument types
and a required count of 1 is not stopped by `arrangeFreeFunctionCall`.  The
facade invokes the engine: the log of engine calls, empty before, holds the
forwarded `arrangeLLVMFunctionInfo` call, required count of 1 included, and
the facade returns whatever that call returned. -/
theorem arrangeFreeFunctionCall_invokes_engine_on_invalid_shape :
    ([] : List CanQualType).length < (RequiredArgs.mk 1).NumRequired
    ∧ callsOf sampleFacade = []
    ∧ callsOf (arrangeFreeFunctionCall (engine samplePolicy).traced sampleFacade
          5 [] ⟨0, false⟩ ⟨1⟩).2
        = [EngineCall.llvmFunctionInfo 5 false false [] ⟨0, false⟩ [] ⟨1⟩]
    ∧ (arrangeFreeFunctionCall (engine samplePolicy).traced sampleFacade
          5 [] ⟨0, false⟩ ⟨1⟩).1
        = ((engine samplePolicy).arrangeLLVMFunctionInfo 5 false false [] ⟨0, false⟩ [] ⟨1⟩
            sampleFacade.CGM.Types.1).1 := by
  refine ⟨by decide, rfl, rfl, rfl⟩

/-- C3 (amended): for a free-function request whose required-argument count
exceeds the number of explicit argument types, `arrangeFreeFunctionCall`
checks nothing itself: over any engine it invokes `arrangeLLVMFunctionInfo`
once, with the request unchanged, and returns that call's outcome.  Over the
specified engine the outcome is the `InvalidCallShape` error, raised by the
engine before any classification: no descriptor is returned and the engine's
configuration and cache are as before. -/
theorem arrangeFreeFunctionCall_invalid_shape_rejected_by_engine {St Info : Type}
    (E : CodeGenTypes St Info) (generic : CodeGenABITypes St)
    (P : TargetPolicy) (self : CodeGenABITypes ArrangerState) (log : List EngineCall)
    (returnType : CanQualType) (argTypes : List CanQualType) (info : ExtInfo)
    (args : RequiredArgs) (h : argTypes.length < args.NumRequired) :
    (arrangeFreeFunctionCall E generic returnType argTypes info args).1
      = (E.arrangeLLVMFunctionInfo returnType false false argTypes info [] args
          generic.CGM.getTypes).1
    ∧ callsOf (arrangeFreeFunctionCall E.traced (withLog generic log) returnType argTypes
          info args).2
      = log ++ [EngineCall.llvmFunctionInfo returnType false false argTypes info [] args]
    ∧ (arrangeFreeFunctionCall (engine P) self returnType argTypes info args).1
      = .error .InvalidCallShape
    ∧ (arrangeFreeFunctionCall (engine P) self returnType argTypes info args).2.CGM.getTypes
      = self.CGM.getTypes := by
  have hrej := arrange_rejects P
    ⟨returnType, argTypes, shapeOfFlags false false, info, args.NumRequired⟩
    argTypes.length self.CGM.Types h
  refine ⟨rfl, rfl, ?_, ?_⟩
  · show (arrange P _ _ self.CGM.Types).1 = _
    rw [hrej]
  · show (arrange P _ _ self.CGM.Types).2 = _
    rw [hrej]
    rfl

/-- C3 (amended) at a concrete input: no argument types, required count 1. -/
theorem arrangeFreeFunctionCall_invalid_shape_rejected_by_engine_witness :
    ([] : List CanQualType).length < (RequiredArgs.mk 1).NumRequired
    ∧ (arrangeFreeFunctionCall (engine samplePolicy) freshFacade 5 [] ⟨0, false⟩ ⟨1⟩).1
      = .error .InvalidCallShape
    ∧ callsOf (arrangeFreeFunctionCall (engine samplePolicy).traced
          (withLog freshFacade []) 5 [] ⟨0, false⟩ ⟨1⟩).2
      = [] ++ [EngineCall.llvmFunctionInfo 5 false false [] ⟨0, false⟩ [] ⟨1⟩] :=
  ⟨by decide,
    (arrangeFreeFunctionCall_invalid_shape_rejected_by_engine (engine samplePolicy)
      freshFacade samplePolicy freshFacade [] 5 [] ⟨0, false⟩ ⟨1⟩ (by decide)).2.2.1,
    (arrangeFreeFunctionCall_invalid_shape_rejected_by_engine (engine samplePolicy)
      freshFacade samplePolicy freshFacade [] 5 [] ⟨0, false⟩ ⟨1⟩ (by decide)).2.1⟩

/-- C5: over the specified engine with a well-built cache, for every receiver
record `RD` and every prototype with explicit parameter types `[A, B]`,
`arrangeCXXMethodType` returns a descriptor whose argument classification
sequence has length 3: the classification of the receiver type first, then
that of `A`, then that of `B`. -/
theorem arrangeCXXMethodType_receiver_first (P : TargetPolicy)
    (self : CodeGenABITypes ArrangerState) (hc : CacheBuilt P self.CGM.Types)
    (RD : CXXRecordDecl) (FTP : FunctionProtoType) (MD : CXXMethodDecl)
    (A B : CanQualType) (hp : FTP.paramTypes = [A, B]) :
    ∃ r : SharedRef,
      (arrangeCXXMethodType (engine P) self RD FTP MD).1 = .ok r
      ∧ r.target.argInfos.length = 3
      ∧ r.target.argInfos
        = [P.classify RD.typeForDecl .receiver self.CGM.Types.config,
           P.classify A .ordinary self.CGM.Types.config,
           P.classify B .ordinary self.CGM.Types.config] := by
  have hok := arrange_ok P
    ⟨FTP.returnType, RD.typeForDecl :: FTP.paramTypes, .instanceMethod, FTP.extInfo,
      FTP.paramTypes.length⟩ FTP.paramTypes.length self.CGM.Types (Nat.le_refl _)
  have ht := getOrCreate_target P self.CGM.Types hc
    ⟨FTP.returnType, RD.typeForDecl :: FTP.paramTypes, .instanceMethod, FTP.extInfo,
      FTP.paramTypes.length⟩
  refine ⟨_, hok, ?_, ?_⟩
  · rw [ht, hp]
    rfl
  · rw [ht, hp]
    rfl

/-- C5 at a concrete input: receiver type 70, parameters `[2, 6]`, empty
cache; the sample policy passes the receiver through memory, extends the
first parameter and passes the second directly. -/
theorem arrangeCXXMethodType_receiver_first_witness :
    CacheBuilt samplePolicy freshFacade.CGM.Types
    ∧ ∃ r : SharedRef,
      (arrangeCXXMethodType (engine samplePolicy) freshFacade ⟨70⟩
          ⟨5, [2, 6], false, ⟨0, false⟩⟩ ⟨0⟩).1 = .ok r
      ∧ r.target.argInfos.length = 3
      ∧ r.target.argInfos
        = [samplePolicy.classify 70 .receiver freshFacade.CGM.Types.config,
           samplePolicy.classify 2 .ordinary freshFacade.CGM.Types.config,
           samplePolicy.classify 6 .ordinary freshFacade.CGM.Types.config] :=
  ⟨cacheBuilt_empty samplePolicy clang.CodeGenOptions.zeroed,
    arrangeCXXMethodType_receiver_first samplePolicy freshFacade
      (cacheBuilt_empty samplePolicy clang.CodeGenOptions.zeroed)
      ⟨70⟩ ⟨5, [2, 6], false, ⟨0, false⟩⟩ ⟨0⟩ 2 6 rfl⟩

end CodeGen

end clang
